import Mathlib

/-!
# CrewLink-server: shallow embedding of `src/index.ts`

The server keeps two global maps, `clients : Map<string, Client>` and
`states : Map<string, AmongUsState>`, plus the socket.io room registry and a
per-socket closure variable `code : string | null`.  JavaScript `Map`s and the
room adapter's objects are modelled as association lists (first binding wins on
lookup, `set` overwrites in place, iteration follows insertion order, exactly
as JS `Map` / object keys behave for string keys).

socket.io v2 transport facts used by the embedding: every socket is a member of
a room named after its own id from connect time; `socket.join(r)` adds it to
room `r` (a set, no duplicates); `socket.leave(r)` removes it, deleting the
room when it becomes empty; `socket.disconnect()` synchronously removes the
socket from all rooms and fires the registered `disconnect` handler;
`io.to(r).emit` targets every member of room `r`; `socket.to(r).broadcast.emit`
targets every member of room `r` except the sender.  `socket.to(code)` with
`code === null` looks up the adapter's room object with key `null`, which JS
coerces to the string key `"null"`.

JavaScript numbers are modelled as `Int` (all values the handlers compare are
integers), `null`/missing values as `Option`, and dynamically-typed handler
arguments as `JVal` so that the `typeof` guards can be expressed.  `JSON.parse`
is an external runtime builtin, so it is a parameter of the semantics
(`parse : String → Option AmongUsState`); a `none` result models a thrown
`SyntaxError`, which propagates out of the handler (`Except.error` carrying the
registries as they stood when the exception was raised).
-/

abbrev SessionId := String

/-- Source `interface Client { playerId: number; clientId: number }`; the code stores
`null` for `clientId` after sentinel normalization, hence `Option Int`. -/
structure Client where
  playerId : Int
  clientId : Option Int
deriving DecidableEq, Repr

/-- Source `enum GameState { LOBBY, TASKS, DISCUSSION, MENU, UNKNOWN }` -/
inductive GameState
  | LOBBY
  | TASKS
  | DISCUSSION
  | MENU
  | UNKNOWN
deriving DecidableEq, Repr

/-- Source `enum MapType { THE_SKELD, MIRA_HQ, POLUS, UNKNOWN }` -/
inductive MapType
  | THE_SKELD
  | MIRA_HQ
  | POLUS
  | UNKNOWN
deriving DecidableEq, Repr

/-- Source `interface Player` of `src/index.ts` (positions are carried opaquely and
never computed with, so JS numbers are uniformly `Int`). -/
structure Player where
  ptr : Int
  id : Int
  clientId : Int
  name : String
  colorId : Int
  hatId : Int
  petId : Int
  skinId : Int
  disconnected : Bool
  isImpostor : Bool
  isDead : Bool
  taskPtr : Int
  objectPtr : Int
  isLocal : Bool
  x : Int
  y : Int
  inVent : Bool
deriving DecidableEq, Repr

/-- Source `interface AmongUsState` of `src/index.ts`. -/
structure AmongUsState where
  gameState : GameState
  oldGameState : GameState
  lobbyCode : String
  players : List Player
  isHost : Bool
  clientId : Int
  hostId : Int
  commsSabotaged : Bool
deriving DecidableEq, Repr

/-- A dynamically-typed JavaScript value as seen by a handler argument. -/
inductive JVal
  | num (n : Int)
  | str (s : String)
  | boolv (b : Bool)
  | undef
  | jnull
  | objOther
deriving DecidableEq, Repr

/-- Test `typeof v === 'number'`. -/
def JVal.isNumber : JVal → Bool
  | .num _ => true
  | _ => false

/-- Test `typeof v === 'string'`. -/
def JVal.isString : JVal → Bool
  | .str _ => true
  | _ => false

/-- JavaScript truthiness of a `JVal` (`0`, `""`, `undefined`, `null`, `false`
are falsy; any object is truthy). -/
def JVal.truthy : JVal → Bool
  | .num n => n ≠ 0
  | .str s => s ≠ ""
  | .boolv b => b
  | .undef => false
  | .jnull => false
  | .objOther => true

/-- Association-list lookup: the JS `Map.get` / object property read. -/
def lookupA {α : Type} : List (String × α) → String → Option α
  | [], _ => none
  | (k, v) :: rest, k' => if k = k' then some v else lookupA rest k'

/-- Association-list overwrite: the JS `Map.set` / object property write. -/
def insertA {α : Type} : List (String × α) → String → α → List (String × α)
  | [], k, v => [(k, v)]
  | (k', v') :: rest, k, v =>
      if k' = k then (k, v) :: rest else (k', v') :: insertA rest k v

/-- Association-list delete: the JS `Map.delete` / `delete obj[k]`. -/
def eraseA {α : Type} : List (String × α) → String → List (String × α)
  | [], _ => []
  | (k', v') :: rest, k => if k' = k then rest else (k', v') :: eraseA rest k

/-- The socket.io room registry: room name to member list in join order. -/
abbrev Rooms := List (String × List SessionId)

/-- Adapter `add`: create the room if absent, add the socket id (set
semantics, duplicates are never stored). -/
def roomAdd (rooms : Rooms) (r : String) (s : SessionId) : Rooms :=
  match lookupA rooms r with
  | some members => if s ∈ members then rooms else insertA rooms r (members ++ [s])
  | none => insertA rooms r [s]

/-- Adapter `del`: remove the socket from the room, deleting the room once
its member set is empty. -/
def roomRemove (rooms : Rooms) (r : String) (s : SessionId) : Rooms :=
  match lookupA rooms r with
  | some members =>
      if members.erase s = [] then eraseA rooms r
      else insertA rooms r (members.erase s)
  | none => rooms

/-- Socket `leaveAll` as the adapter sees it: drop the socket from every room,
deleting rooms that become empty. -/
def roomsRemoveAll (rooms : Rooms) (s : SessionId) : Rooms :=
  rooms.filterMap fun rm =>
    if rm.2.erase s = [] then none else some (rm.1, rm.2.erase s)

/-- The per-socket connection record: liveness plus the handler-closure
variable `let code: string | null = null`. -/
structure SocketState where
  connected : Bool
  code : Option String
deriving DecidableEq, Repr

/-- The whole server state: the two global maps, the room adapter, the
per-socket records and `connectionCount`. -/
structure ServerState where
  clients : List (SessionId × Client)
  states : List (String × AmongUsState)
  rooms : Rooms
  sockets : List (SessionId × SocketState)
  connectionCount : Int
deriving DecidableEq, Repr

def initState : ServerState :=
  { clients := [], states := [], rooms := [], sockets := [], connectionCount := 0 }

/-- An outbound emission, with the concrete target list the adapter computes. -/
inductive Emission
  | joinBroadcast (targets : List SessionId) (joiner : SessionId) (identity : Client)
  | setClients (target : SessionId) (peers : List (SessionId × Option Client))
  | setClient (targets : List SessionId) (sid : SessionId) (identity : Client)
  | signalOut (targets : List SessionId) (data : JVal) (src : SessionId)
deriving DecidableEq, Repr

/-- Normalization `clientId === Math.pow(2, 32) - 1 ? null : clientId`. -/
def normalizeClientId (n : Int) : Option Int :=
  if n = 2 ^ 32 - 1 then none else some n

/-- Members of the adapter room named `r` (empty when the room is absent). -/
def roomMembers (st : ServerState) (r : String) : List SessionId :=
  (lookupA st.rooms r).getD []

/-- The spoofing test of the `join` handler for one existing room member:
`clients.has(s) && clients.get(s).clientId === clientId` (a stored `null`
clientId is never `===` to the asserted number). -/
def spoofMatch (clientsMap : List (SessionId × Client)) (clientId : Int)
    (s : SessionId) : Bool :=
  match lookupA clientsMap s with
  | some cl => cl.clientId = some clientId
  | none => false

/-- Effect of `socket.disconnect()` as observed on the server: the socket leaves every
room, and the registered `disconnect` handler fires synchronously
(`clients.delete(socket.id); connectionCount--`). -/
def disconnectSocket (st : ServerState) (s : SessionId) : ServerState :=
  { st with
    rooms := roomsRemoveAll st.rooms s
    clients := eraseA st.clients s
    sockets :=
      match lookupA st.sockets s with
      | some ss => insertA st.sockets s { ss with connected := false }
      | none => insertA st.sockets s { connected := false, code := none }
    connectionCount := st.connectionCount - 1 }

/-- Handler `io.on('connection', ...)`: the socket record is created with `code =
null`, the socket auto-joins the room named after its id, and
`connectionCount++`. -/
def connectSocket (st : ServerState) (s : SessionId) : ServerState :=
  { st with
    sockets := insertA st.sockets s { connected := true, code := none }
    rooms := roomAdd st.rooms s s
    connectionCount := st.connectionCount + 1 }

/-- Handler `socket.on('join', (c, id, clientId) => ...)`. -/
def joinHandler (st : ServerState) (s : SessionId) (cV idV clV : JVal) :
    ServerState × List Emission :=
  match cV, idV, clV with
  | .str c, .num id, .num clientId =>
      let members := roomMembers st c
      if members.any (spoofMatch st.clients clientId) then
        (disconnectSocket st s, [])
      else
        let otherClients :=
          (members.filter (· ≠ s)).map fun s' => (s', lookupA st.clients s')
        let st' :=
          { st with
            sockets := insertA st.sockets s { connected := true, code := some c }
            rooms := roomAdd st.rooms c s }
        let bTargets := (roomMembers st' c).filter (· ≠ s)
        (st',
          [ .joinBroadcast bTargets s { playerId := id, clientId := normalizeClientId clientId },
            .setClients s otherClients ])
  | _, _, _ => (disconnectSocket st s, [])

/-- The handler-closure variable `code` of socket `s`. -/
def codeVar (st : ServerState) (s : SessionId) : Option String :=
  match lookupA st.sockets s with
  | some ss => ss.code
  | none => none

/-- Handler `socket.on('id', (id, clientId) => ...)`.  The broadcast goes through
`socket.to(code)`; a `null` code coerces to the room key `"null"`. -/
def idHandler (st : ServerState) (s : SessionId) (idV clV : JVal) :
    ServerState × List Emission :=
  match idV, clV with
  | .num id, .num clientId =>
      let stored := lookupA st.clients s
      let mismatch : Bool :=
        match stored with
        | some cl =>
            match cl.clientId with
            | some v => v != clientId
            | none => false
        | none => false
      if mismatch then
        (disconnectSocket st s, [])
      else
        let client : Client := { playerId := id, clientId := normalizeClientId clientId }
        let roomKey := (codeVar st s).getD "null"
        let targets := (roomMembers st roomKey).filter (· ≠ s)
        ({ st with clients := insertA st.clients s client },
          [ .setClient targets s client ])
  | _, _ => (disconnectSocket st s, [])

/-- Handler `socket.on('pushstate', (id, state) => ...)`: no type guard; `JSON.parse`
runs first, and only on success is `states.set(gameState.lobbyCode, gameState)`
reached.  A parse failure throws, carrying the untouched registries. -/
def pushstateHandler (parse : String → Option AmongUsState) (st : ServerState)
    (_s : SessionId) (_idV : JVal) (state : String) :
    Except ServerState (ServerState × List Emission) :=
  match parse state with
  | none => .error st
  | some gameState =>
      .ok ({ st with states := insertA st.states gameState.lobbyCode gameState }, [])

/-- Handler `socket.on('leave', ...)`: `if (code?) { socket.leave(code);
clients.delete(socket.id); }` — the guard is JS truthiness, so a `null` or
empty-string code skips both effects; the `code` variable itself is kept. -/
def leaveHandler (st : ServerState) (s : SessionId) : ServerState × List Emission :=
  match codeVar st s with
  | some c =>
      if c ≠ "" then
        ({ st with rooms := roomRemove st.rooms c s, clients := eraseA st.clients s }, [])
      else (st, [])
  | none => (st, [])

/-- The argument of the `signal` handler.  `obj` is a non-null object with its
`data` and `to` fields; JS `null` has `typeof 'object'` but reading `.data`
from it throws; any other primitive fails the `typeof` guard. -/
inductive SignalArg
  | obj (dataField toField : JVal)
  | nullArg
  | nonObj (v : JVal)
deriving DecidableEq, Repr

/-- Handler `socket.on('signal', (signal) => ...)`: the guard disconnects on a
non-object, falsy `data`, falsy `to`, or non-string `to`; otherwise
`io.to(to).emit('signal', {data, from})` targets every member of room `to`. -/
def signalHandler (st : ServerState) (s : SessionId) (sig : SignalArg) :
    Except ServerState (ServerState × List Emission) :=
  match sig with
  | .obj dataField toField =>
      if dataField.truthy && toField.truthy && toField.isString then
        match toField with
        | .str toRoom => .ok (st, [ .signalOut (roomMembers st toRoom) dataField s ])
        | _ => .ok (disconnectSocket st s, [])
      else .ok (disconnectSocket st s, [])
  | .nullArg => .error st
  | .nonObj _ => .ok (disconnectSocket st s, [])

/-- One transport-level event. -/
inductive Msg
  | connect (s : SessionId)
  | join (s : SessionId) (cV idV clV : JVal)
  | idmsg (s : SessionId) (idV clV : JVal)
  | pushstate (s : SessionId) (idV : JVal) (state : String)
  | leave (s : SessionId)
  | signal (s : SessionId) (sig : SignalArg)
  | disconnect (s : SessionId)
deriving DecidableEq, Repr

/-- Is socket `s` currently connected?  The transport delivers handler events
only for live sockets (§5: nothing is processed after a disconnect). -/
def isConnected (st : ServerState) (s : SessionId) : Bool :=
  match lookupA st.sockets s with
  | some ss => ss.connected
  | none => false

/-- One event step of the relay engine. -/
def step (parse : String → Option AmongUsState) (st : ServerState) :
    Msg → Except ServerState (ServerState × List Emission)
  | .connect s => .ok (connectSocket st s, [])
  | .join s cV idV clV =>
      if isConnected st s then .ok (joinHandler st s cV idV clV) else .ok (st, [])
  | .idmsg s idV clV =>
      if isConnected st s then .ok (idHandler st s idV clV) else .ok (st, [])
  | .pushstate s idV state =>
      if isConnected st s then pushstateHandler parse st s idV state else .ok (st, [])
  | .leave s =>
      if isConnected st s then .ok (leaveHandler st s) else .ok (st, [])
  | .signal s sig =>
      if isConnected st s then signalHandler st s sig else .ok (st, [])
  | .disconnect s =>
      if isConnected st s then .ok (disconnectSocket st s, []) else .ok (st, [])

/-- Run a list of events, accumulating every emission. -/
def runMsgs (parse : String → Option AmongUsState) (st : ServerState) :
    List Msg → Except ServerState (ServerState × List Emission)
  | [] => .ok (st, [])
  | m :: ms =>
      match step parse st m with
      | .error e => .error e
      | .ok (st', out) =>
          match runMsgs parse st' ms with
          | .error e => .error e
          | .ok (st'', out') => .ok (st'', out ++ out')

/-- Run `runMsgs` from the empty initial state, as an `Option` for easy
computation on concrete traces. -/
def runOut (parse : String → Option AmongUsState) (trace : List Msg) :
    Option (ServerState × List Emission) :=
  match runMsgs parse initState trace with
  | .ok r => some r
  | .error _ => none

/-- A parse function for traces that contain no `pushstate` event. -/
def noParse : String → Option AmongUsState := fun _ => none

/-! ## Association-list and room lemmas -/

theorem lookupA_insertA {α : Type} (m : List (String × α)) (k j : String) (v : α) :
    lookupA (insertA m k v) j = if k = j then some v else lookupA m j := by
  induction m with
  | nil => simp [insertA, lookupA]
  | cons hd tl ih =>
      obtain ⟨a, b⟩ := hd
      by_cases hak : a = k
      · subst hak
        by_cases haj : a = j
        · subst haj
          simp [insertA, lookupA]
        · simp [insertA, lookupA, haj]
      · by_cases haj : a = j
        · subst haj
          have hka : ¬ k = a := fun h => hak h.symm
          simp [insertA, lookupA, hak, hka]
        · simp [insertA, lookupA, hak, haj, ih]

theorem lookupA_eraseA_ne {α : Type} (m : List (String × α)) (k j : String)
    (h : j ≠ k) : lookupA (eraseA m k) j = lookupA m j := by
  induction m with
  | nil => simp [eraseA]
  | cons hd tl ih =>
      obtain ⟨a, b⟩ := hd
      by_cases hak : a = k
      · subst hak
        have haj : ¬ a = j := fun hh => h (hh ▸ rfl)
        simp [eraseA, lookupA, haj]
      · simp [eraseA, lookupA, hak, ih]

theorem mem_eraseA {α : Type} (m : List (String × α)) (k : String)
    (x : String × α) (hx : x ∈ eraseA m k) : x ∈ m := by
  induction m with
  | nil => simp [eraseA] at hx
  | cons hd tl ih =>
      obtain ⟨a, b⟩ := hd
      by_cases hak : a = k
      · subst hak
        rw [eraseA, if_pos rfl] at hx
        exact List.mem_cons_of_mem _ hx
      · rw [eraseA, if_neg hak] at hx
        rcases List.mem_cons.mp hx with h1 | h1
        · exact h1 ▸ List.mem_cons_self _ _
        · exact List.mem_cons_of_mem _ (ih h1)

theorem mem_insertA {α : Type} (m : List (String × α)) (k : String) (v : α)
    (x : String × α) (hx : x ∈ insertA m k v) : x ∈ m ∨ x = (k, v) := by
  induction m with
  | nil =>
      rw [insertA] at hx
      exact Or.inr (List.mem_singleton.mp hx)
  | cons hd tl ih =>
      obtain ⟨a, b⟩ := hd
      by_cases hak : a = k
      · subst hak
        rw [insertA, if_pos rfl] at hx
        rcases List.mem_cons.mp hx with h1 | h1
        · exact Or.inr h1
        · exact Or.inl (List.mem_cons_of_mem _ h1)
      · rw [insertA, if_neg hak] at hx
        rcases List.mem_cons.mp hx with h1 | h1
        · exact Or.inl (h1 ▸ List.mem_cons_self _ _)
        · rcases ih h1 with h2 | h2
          · exact Or.inl (List.mem_cons_of_mem _ h2)
          · exact Or.inr h2

theorem lookupA_mem {α : Type} (m : List (String × α)) (k : String) (v : α)
    (h : lookupA m k = some v) : (k, v) ∈ m := by
  induction m with
  | nil => simp [lookupA] at h
  | cons hd tl ih =>
      obtain ⟨a, b⟩ := hd
      rw [lookupA] at h
      by_cases hak : a = k
      · rw [if_pos hak] at h
        injection h with h1
        subst h1
        subst hak
        exact List.mem_cons_self _ _
      · rw [if_neg hak] at h
        exact List.mem_cons_of_mem _ (ih h)

theorem lookupA_eq_none {α : Type} (m : List (String × α)) (k : String)
    (h : k ∉ m.map Prod.fst) : lookupA m k = none := by
  induction m with
  | nil => simp [lookupA]
  | cons hd tl ih =>
      obtain ⟨a, b⟩ := hd
      simp only [List.map_cons, List.mem_cons] at h
      push_neg at h
      have hak : ¬ a = k := fun hh => h.1 hh.symm
      rw [lookupA, if_neg hak]
      exact ih h.2

theorem lookupA_eraseA_self_of_nodup {α : Type} (m : List (String × α)) (k : String)
    (h : (m.map Prod.fst).Nodup) : lookupA (eraseA m k) k = none := by
  induction m with
  | nil => simp [eraseA, lookupA]
  | cons hd tl ih =>
      obtain ⟨a, b⟩ := hd
      simp only [List.map_cons, List.nodup_cons] at h
      by_cases hak : a = k
      · subst hak
        rw [eraseA, if_pos rfl]
        exact lookupA_eq_none tl a h.1
      · rw [eraseA, if_neg hak, lookupA, if_neg hak]
        exact ih h.2

theorem insertA_insertA_same {α : Type} (m : List (String × α)) (k : String) (v : α) :
    insertA (insertA m k v) k v = insertA m k v := by
  induction m with
  | nil => simp [insertA]
  | cons hd tl ih =>
      obtain ⟨a, b⟩ := hd
      by_cases hak : a = k
      · subst hak
        simp [insertA]
      · simp [insertA, hak, ih]

theorem mem_roomsRemoveAll (rooms : Rooms) (s : SessionId) (rm : String × List SessionId)
    (h : rm ∈ roomsRemoveAll rooms s) :
    ∃ ms, (rm.1, ms) ∈ rooms ∧ rm.2 = ms.erase s := by
  simp only [roomsRemoveAll, List.mem_filterMap] at h
  obtain ⟨⟨r0, ms0⟩, hmem, hf⟩ := h
  dsimp only at hf
  by_cases he : ms0.erase s = []
  · rw [if_pos he] at hf
    exact absurd hf (by simp)
  · rw [if_neg he] at hf
    injection hf with h1
    subst h1
    exact ⟨ms0, hmem, rfl⟩

theorem roomsRemoveAll_cons (hd : String × List SessionId) (tl : Rooms) (s : SessionId) :
    roomsRemoveAll (hd :: tl) s =
      if hd.2.erase s = [] then roomsRemoveAll tl s
      else (hd.1, hd.2.erase s) :: roomsRemoveAll tl s := by
  by_cases he : hd.2.erase s = []
  · simp only [roomsRemoveAll, List.filterMap_cons]
    rw [if_pos he, if_pos he]
  · simp only [roomsRemoveAll, List.filterMap_cons]
    rw [if_neg he, if_neg he]

theorem lookupA_roomsRemoveAll (rooms : Rooms) (s : SessionId) (L : String)
    (ms : List SessionId) (hms : lookupA rooms L = some ms)
    (hne : ms.erase s ≠ []) :
    lookupA (roomsRemoveAll rooms s) L = some (ms.erase s) := by
  induction rooms with
  | nil => simp [lookupA] at hms
  | cons hd tl ih =>
      obtain ⟨r0, ms0⟩ := hd
      rw [lookupA] at hms
      by_cases hr : r0 = L
      · rw [if_pos hr] at hms
        injection hms with h1
        subst h1
        subst hr
        rw [roomsRemoveAll_cons]
        dsimp only
        rw [if_neg hne, lookupA, if_pos rfl]
      · rw [if_neg hr] at hms
        rw [roomsRemoveAll_cons]
        dsimp only
        by_cases he : ms0.erase s = []
        · rw [if_pos he]
          exact ih hms
        · rw [if_neg he, lookupA, if_neg hr]
          exact ih hms

/-! ## The per-lobby clientId uniqueness invariant -/

/-- Within every adapter room, no two distinct member sessions hold identities
with the same non-null `clientId` (membership-based formulation). -/
def UniqueIds (st : ServerState) : Prop :=
  ∀ rm ∈ st.rooms, ∀ s1 ∈ rm.2, ∀ s2 ∈ rm.2, s1 ≠ s2 →
    ∀ e1 ∈ st.clients, ∀ e2 ∈ st.clients, e1.1 = s1 → e2.1 = s2 →
      ∀ v : Int, e1.2.clientId = some v → e2.2.clientId = some v → False

/-- Decidable check of the same invariant, for concrete states. -/
def uniqueClientIds (st : ServerState) : Bool :=
  st.rooms.all fun rm =>
    rm.2.all fun s1 => rm.2.all fun s2 =>
      s1 = s2 ||
        (match lookupA st.clients s1, lookupA st.clients s2 with
         | some c1, some c2 => ! (c1.clientId.isSome && c1.clientId == c2.clientId)
         | _, _ => true)

/-! ## Claim theorems -/

/-- Claim C1, counterexample.  After S1 joins `"LOBBY1"` with
`(playerId=0, clientId=5)` and S2 joins with `(playerId=1, clientId=6)`, the
`join` handler has never written to the `clients` map, so the `setClients`
snapshot sent to S2 maps S1 to `clients.get("S1") = undefined` (`none`), not to
`{playerId: 0, clientId: 5}` as the claim states.  (S1 does receive the
broadcast `join` event `(S2, {playerId:1, clientId:6})`, so only the
`setClients` half of the claim fails.) -/
theorem C1_counterexample :
    ((runOut noParse
        [Msg.connect "S1", Msg.connect "S2",
         Msg.join "S1" (JVal.str "LOBBY1") (JVal.num 0) (JVal.num 5),
         Msg.join "S2" (JVal.str "LOBBY1") (JVal.num 1) (JVal.num 6)]).map Prod.snd =
      some
        [Emission.joinBroadcast [] "S1" { playerId := 0, clientId := some 5 },
         Emission.setClients "S1" [],
         Emission.joinBroadcast ["S1"] "S2" { playerId := 1, clientId := some 6 },
         Emission.setClients "S2" [("S1", none)]]) ∧
    [(("S1" : SessionId), (none : Option Client))] ≠
      [("S1", some { playerId := 0, clientId := some 5 })] := by
  decide

/-- Claim C1, amended.  If S1 additionally binds its identity with an `id`
message after joining, then S2's `setClients` snapshot is
`{S1: {playerId:0, clientId:5}}` and S1 receives the broadcast `join` event
`(S2, {playerId:1, clientId:6})`, exactly as the claim describes. -/
theorem C1_amended :
    ((runOut noParse
        [Msg.connect "S1", Msg.connect "S2",
         Msg.join "S1" (JVal.str "LOBBY1") (JVal.num 0) (JVal.num 5),
         Msg.idmsg "S1" (JVal.num 0) (JVal.num 5),
         Msg.join "S2" (JVal.str "LOBBY1") (JVal.num 1) (JVal.num 6)]).map Prod.snd =
      some
        [Emission.joinBroadcast [] "S1" { playerId := 0, clientId := some 5 },
         Emission.setClients "S1" [],
         Emission.setClient [] "S1" { playerId := 0, clientId := some 5 },
         Emission.joinBroadcast ["S1"] "S2" { playerId := 1, clientId := some 6 },
         Emission.setClients "S2" [("S1", some { playerId := 0, clientId := some 5 })]]) := by
  decide

/-- Claim C2, counterexample.  A reachable state violating the uniqueness
invariant: S1 and S2 both join `"LOBBY1"` and then both `identify` with
`clientId = 5`; the `id` handler checks only against the session's own prior
identity, so both bindings succeed and two members of the lobby hold the same
non-null `clientId`. -/
theorem C2_counterexample :
    (runOut noParse
        [Msg.connect "S1", Msg.connect "S2",
         Msg.join "S1" (JVal.str "LOBBY1") (JVal.num 0) (JVal.num 5),
         Msg.join "S2" (JVal.str "LOBBY1") (JVal.num 1) (JVal.num 6),
         Msg.idmsg "S1" (JVal.num 0) (JVal.num 5),
         Msg.idmsg "S2" (JVal.num 1) (JVal.num 5)]).map
        (fun r => uniqueClientIds r.1) = some false := by
  decide

/-- Claim C3, counterexample.  S1 joins `"LOBBY1"` asserting `clientId = 5`,
then S2 joins asserting the same `clientId = 5`: because `join` never records
an identity, the spoofing scan finds no bound `clientId` to compare against,
so the second join also succeeds — S2 stays connected and is a member of the
lobby, contradicting the claim that it is rejected and disconnected. -/
theorem C3_counterexample :
    (runOut noParse
        [Msg.connect "S1", Msg.connect "S2",
         Msg.join "S1" (JVal.str "LOBBY1") (JVal.num 0) (JVal.num 5),
         Msg.join "S2" (JVal.str "LOBBY1") (JVal.num 1) (JVal.num 5)]).map
        (fun r => (isConnected r.1 "S2", roomMembers r.1 "LOBBY1")) =
      some (true, ["S1", "S2"]) := by
  decide

/-- Claim C5, counterexample.  A session binds `(0, 5)` and then re-identifies
with `clientId = 6`: the mismatch disconnects it, and the synchronous
`disconnect` handler deletes the stored identity, so the registry afterwards
holds nothing for the session — not the unchanged `{playerId:0, clientId:5}`
the claim asserts. -/
theorem C5_counterexample :
    ((runOut noParse
        [Msg.connect "S", Msg.idmsg "S" (JVal.num 0) (JVal.num 5)]).map
        (fun r => lookupA r.1.clients "S") =
      some (some { playerId := 0, clientId := some 5 })) ∧
    ((runOut noParse
        [Msg.connect "S", Msg.idmsg "S" (JVal.num 0) (JVal.num 5),
         Msg.idmsg "S" (JVal.num 0) (JVal.num 6)]).map
        (fun r => (lookupA r.1.clients "S", isConnected r.1 "S")) =
      some (none, false)) ∧
    (none : Option Client) ≠ some { playerId := 0, clientId := some 5 } := by
  refine ⟨by decide, by decide, by decide⟩

/-- Claim C6, counterexample.  `id` with the sentinel `2^32 - 1` stores
`{playerId: 7, clientId: null}` and broadcasts `setClient`; omitting the
`clientId` argument (`undefined`) instead fails the `typeof` guard, so the
session is disconnected and nothing is stored — the two behaviours are not
identical as the claim asserts. -/
theorem C6_counterexample :
    ((runOut noParse
        [Msg.connect "S", Msg.idmsg "S" (JVal.num 7) (JVal.num 4294967295)]).map
        (fun r => (lookupA r.1.clients "S", isConnected r.1 "S", r.2)) =
      some (some { playerId := 7, clientId := none }, true,
        [Emission.setClient [] "S" { playerId := 7, clientId := none }])) ∧
    ((runOut noParse
        [Msg.connect "S", Msg.idmsg "S" (JVal.num 7) JVal.undef]).map
        (fun r => (lookupA r.1.clients "S", isConnected r.1 "S", r.2)) =
      some (none, false, [])) := by
  refine ⟨by decide, by decide⟩

/-- Claim C4, counterexample.  `io.to(to).emit` targets the *room* named `to`.
Session E joins a lobby whose code is the string `"B"` — the session id of B —
so when A sends `signal({to: "B", data: "D"})`, the relay delivers
`{data: "D", from: "A"}` to both B and E, not to session B alone. -/
theorem C4_counterexample :
    ((runOut noParse
        [Msg.connect "A", Msg.connect "B", Msg.connect "E",
         Msg.join "E" (JVal.str "B") (JVal.num 0) (JVal.num 1),
         Msg.signal "A" (SignalArg.obj (JVal.str "D") (JVal.str "B"))]).map Prod.snd =
      some
        [Emission.joinBroadcast ["B"] "E" { playerId := 0, clientId := some 1 },
         Emission.setClients "E" [("B", none)],
         Emission.signalOut ["B", "E"] (JVal.str "D") "A"]) ∧
    ("E" : SessionId) ≠ "B" := by
  refine ⟨by decide, by decide⟩

/-- After `socket.disconnect()`, the socket's record is marked not connected. -/
theorem isConnected_disconnectSocket (st : ServerState) (s : SessionId) :
    isConnected (disconnectSocket st s) s = false := by
  unfold isConnected disconnectSocket
  cases hss : lookupA st.sockets s
  · simp [hss, lookupA_insertA]
  · simp [hss, lookupA_insertA]

/-- Claim C4, amended.  A well-formed `signal({to: t, data: d})` is delivered
as `{data: d, from: s}` to exactly the members of the adapter room named `t`:
session `t` itself when it is live, plus any session that joined a lobby whose
code equals `t`.  When no lobby shares the name `t`, that is exactly session
`t` and nobody else; the server state is unchanged. -/
theorem C4_amended (st : ServerState) (s : SessionId) (d : JVal) (t : String)
    (hd : d.truthy = true) (ht : t ≠ "") :
    signalHandler st s (SignalArg.obj d (JVal.str t)) =
      Except.ok (st, [Emission.signalOut (roomMembers st t) d s]) := by
  have h1 : (JVal.str t).truthy = true := by simp [JVal.truthy, ht]
  simp [signalHandler, hd, h1, JVal.isString]

/-- Claim C4 witness: concrete instance of the amended theorem. -/
theorem C4_amended_witness :
    signalHandler initState "A" (SignalArg.obj (JVal.str "D") (JVal.str "X")) =
      Except.ok (initState, [Emission.signalOut (roomMembers initState "X") (JVal.str "D") "A"]) :=
  C4_amended initState "A" (JVal.str "D") "X" (by decide) (by decide)

/-- Claim C8: a session `s` that is already a member of room `L` with a bound
identity whose `clientId` is `c`, and re-joins `L` asserting the same `c`, is
disconnected — the spoofing scan iterates over *all* sockets in the room and
does not exclude the joining socket itself. -/
theorem C8_self_spoof (st : ServerState) (s : SessionId) (L : String) (p c : Int)
    (ms : List SessionId) (cl : Client)
    (hms : lookupA st.rooms L = some ms) (hmem : s ∈ ms)
    (hcl : lookupA st.clients s = some cl) (hcid : cl.clientId = some c) :
    joinHandler st s (JVal.str L) (JVal.num p) (JVal.num c) = (disconnectSocket st s, []) ∧
    isConnected (disconnectSocket st s) s = false := by
  have hspoof : (roomMembers st L).any (spoofMatch st.clients c) = true := by
    rw [List.any_eq_true]
    refine ⟨s, ?_, ?_⟩
    · rw [roomMembers, hms]
      exact hmem
    · simp [spoofMatch, hcl, hcid]
  refine ⟨?_, isConnected_disconnectSocket st s⟩
  simp only [joinHandler]
  rw [if_pos hspoof]

/-- Claim C8 witness: concrete instance. -/
theorem C8_self_spoof_witness :
    joinHandler
        { clients := [("S", { playerId := 0, clientId := some 5 })],
          states := [], rooms := [("L", ["S"])],
          sockets := [("S", { connected := true, code := some "L" })],
          connectionCount := 1 }
        "S" (JVal.str "L") (JVal.num 0) (JVal.num 5) =
      (disconnectSocket
        { clients := [("S", { playerId := 0, clientId := some 5 })],
          states := [], rooms := [("L", ["S"])],
          sockets := [("S", { connected := true, code := some "L" })],
          connectionCount := 1 } "S", []) ∧
    isConnected
        (disconnectSocket
          { clients := [("S", { playerId := 0, clientId := some 5 })],
            states := [], rooms := [("L", ["S"])],
            sockets := [("S", { connected := true, code := some "L" })],
            connectionCount := 1 } "S") "S" = false :=
  C8_self_spoof _ "S" "L" 0 5 ["S"] { playerId := 0, clientId := some 5 }
    (by decide) (by decide) (by decide) (by decide)

/-- Claim C9: a connected session that never joined any lobby (its `code`
variable is still `null`) and has no prior identity can still `identify` with
well-typed arguments: the identity is created and stored, the session is not
disconnected, and the `setClient` broadcast goes to the room keyed by the
string `"null"` (normally empty). -/
theorem C9_identify_without_lobby (st : ServerState) (s : SessionId) (p c : Int)
    (hcode : codeVar st s = none) (hidn : lookupA st.clients s = none) :
    idHandler st s (JVal.num p) (JVal.num c) =
      ({ st with clients := insertA st.clients s { playerId := p, clientId := normalizeClientId c } },
        [Emission.setClient ((roomMembers st "null").filter (· ≠ s)) s
          { playerId := p, clientId := normalizeClientId c }]) ∧
    lookupA (idHandler st s (JVal.num p) (JVal.num c)).1.clients s =
      some { playerId := p, clientId := normalizeClientId c } ∧
    isConnected (idHandler st s (JVal.num p) (JVal.num c)).1 s = isConnected st s := by
  have h1 : idHandler st s (JVal.num p) (JVal.num c) =
      ({ st with clients := insertA st.clients s { playerId := p, clientId := normalizeClientId c } },
        [Emission.setClient ((roomMembers st "null").filter (· ≠ s)) s
          { playerId := p, clientId := normalizeClientId c }]) := by
    simp [idHandler, hidn, hcode]
  refine ⟨h1, ?_, ?_⟩
  · rw [h1, lookupA_insertA]
    simp
  · rw [h1]
    rfl

/-- Claim C9 witness: concrete instance. -/
theorem C9_identify_without_lobby_witness :
    idHandler (connectSocket initState "S") "S" (JVal.num 3) (JVal.num 7) =
      ({ connectSocket initState "S" with
          clients := insertA (connectSocket initState "S").clients "S"
            { playerId := 3, clientId := normalizeClientId 7 } },
        [Emission.setClient
          ((roomMembers (connectSocket initState "S") "null").filter (· ≠ "S")) "S"
          { playerId := 3, clientId := normalizeClientId 7 }]) ∧
    lookupA (idHandler (connectSocket initState "S") "S" (JVal.num 3) (JVal.num 7)).1.clients "S" =
      some { playerId := 3, clientId := normalizeClientId 7 } ∧
    isConnected (idHandler (connectSocket initState "S") "S" (JVal.num 3) (JVal.num 7)).1 "S" =
      isConnected (connectSocket initState "S") "S" :=
  C9_identify_without_lobby (connectSocket initState "S") "S" 3 7 (by decide) (by decide)

/-- Claim C10: a `pushstate` whose payload does not parse raises the
`JSON.parse` failure before `states.set` is reached, so the step fails with
the registries exactly as they were — the snapshot map is unchanged by the
failed message. -/
theorem C10_pushstate_atomic (parse : String → Option AmongUsState)
    (st : ServerState) (s : SessionId) (idV : JVal) (state : String)
    (hp : parse state = none) (hc : isConnected st s = true) :
    step parse st (Msg.pushstate s idV state) = Except.error st := by
  simp [step, hc, pushstateHandler, hp]

/-- Claim C10 witness: concrete instance. -/
theorem C10_pushstate_atomic_witness :
    step noParse (connectSocket initState "S") (Msg.pushstate "S" (JVal.num 0) "bad") =
      Except.error (connectSocket initState "S") :=
  C10_pushstate_atomic noParse (connectSocket initState "S") "S" (JVal.num 0) "bad"
    rfl (by decide)

/-- Claim C3, amended.  The second join asserting an existing member's
clientId is rejected and disconnected *provided the first session has bound
that clientId via an `id` message* (a bare join records nothing to compare
against).  The scan then fires: the second session is disconnected before
joining, its identity entry is untouched (only its own is deleted by the
disconnect cleanup), and the first session's membership and identity are
unaffected. -/
theorem C3_amended (st : ServerState) (s1 s2 : SessionId) (L : String) (p c : Int)
    (ms : List SessionId) (cl : Client)
    (hms : lookupA st.rooms L = some ms) (hmem : s1 ∈ ms)
    (hcl : lookupA st.clients s1 = some cl) (hcid : cl.clientId = some c)
    (hne : s1 ≠ s2) :
    joinHandler st s2 (JVal.str L) (JVal.num p) (JVal.num c) = (disconnectSocket st s2, []) ∧
    isConnected (disconnectSocket st s2) s2 = false ∧
    lookupA (disconnectSocket st s2).clients s1 = lookupA st.clients s1 ∧
    lookupA (disconnectSocket st s2).rooms L = some (ms.erase s2) ∧
    s1 ∈ ms.erase s2 ∧
    (s2 ∉ ms → s2 ∉ ms.erase s2) := by
  have hspoof : (roomMembers st L).any (spoofMatch st.clients c) = true := by
    rw [List.any_eq_true]
    refine ⟨s1, ?_, ?_⟩
    · rw [roomMembers, hms]
      exact hmem
    · simp [spoofMatch, hcl, hcid]
  have hs1e : s1 ∈ ms.erase s2 := (List.mem_erase_of_ne hne).mpr hmem
  refine ⟨?_, isConnected_disconnectSocket st s2, ?_, ?_, hs1e, ?_⟩
  · simp only [joinHandler]
    rw [if_pos hspoof]
  · exact lookupA_eraseA_ne st.clients s2 s1 hne
  · exact lookupA_roomsRemoveAll st.rooms s2 L ms hms (List.ne_nil_of_mem hs1e)
  · intro h2 hmem'
    exact h2 (List.mem_of_mem_erase hmem')

/-- Claim C3 witness: concrete instance of the amended theorem. -/
theorem C3_amended_witness :
    joinHandler
        { clients := [("S1", { playerId := 0, clientId := some 5 })],
          states := [], rooms := [("L", ["S1"])],
          sockets := [("S1", { connected := true, code := some "L" }),
                      ("S2", { connected := true, code := none })],
          connectionCount := 2 }
        "S2" (JVal.str "L") (JVal.num 1) (JVal.num 5) =
      (disconnectSocket
        { clients := [("S1", { playerId := 0, clientId := some 5 })],
          states := [], rooms := [("L", ["S1"])],
          sockets := [("S1", { connected := true, code := some "L" }),
                      ("S2", { connected := true, code := none })],
          connectionCount := 2 } "S2", []) ∧
    isConnected
        (disconnectSocket
          { clients := [("S1", { playerId := 0, clientId := some 5 })],
            states := [], rooms := [("L", ["S1"])],
            sockets := [("S1", { connected := true, code := some "L" }),
                        ("S2", { connected := true, code := none })],
            connectionCount := 2 } "S2") "S2" = false ∧
    lookupA
        (disconnectSocket
          { clients := [("S1", { playerId := 0, clientId := some 5 })],
            states := [], rooms := [("L", ["S1"])],
            sockets := [("S1", { connected := true, code := some "L" }),
                        ("S2", { connected := true, code := none })],
            connectionCount := 2 } "S2").clients "S1" =
      lookupA
        [(("S1" : SessionId), { playerId := 0, clientId := some 5 : Client })] "S1" ∧
    lookupA
        (disconnectSocket
          { clients := [("S1", { playerId := 0, clientId := some 5 })],
            states := [], rooms := [("L", ["S1"])],
            sockets := [("S1", { connected := true, code := some "L" }),
                        ("S2", { connected := true, code := none })],
            connectionCount := 2 } "S2").rooms "L" = some (["S1"].erase "S2") ∧
    "S1" ∈ ["S1"].erase "S2" ∧
    ("S2" ∉ (["S1"] : List SessionId) → "S2" ∉ ["S1"].erase "S2") :=
  C3_amended _ "S1" "S2" "L" 1 5 ["S1"] { playerId := 0, clientId := some 5 }
    (by decide) (by decide) (by decide) (by decide) (by decide)

/-- Sentinel normalization never yields the raw value back unless it was not
the sentinel: a `some` result is the asserted value itself. -/
theorem normalizeClientId_some (v w : Int) (h : normalizeClientId v = some w) : w = v := by
  unfold normalizeClientId at h
  by_cases hs : v = 2 ^ 32 - 1
  · rw [if_pos hs] at h
    cases h
  · rw [if_neg hs] at h
    injection h with h1
    exact h1.symm

/-- The success path of the `id` handler: when the session's stored
`clientId` (if any) does not contradict the asserted one, the identity is
overwritten with the normalized pair and `setClient` is broadcast to the
session's current room (key `"null"` when it never joined). -/
theorem idHandler_success (st : ServerState) (s : SessionId) (p c : Int)
    (hok : ∀ cl, lookupA st.clients s = some cl → ∀ w, cl.clientId = some w → w = c) :
    idHandler st s (JVal.num p) (JVal.num c) =
      ({ st with clients := insertA st.clients s { playerId := p, clientId := normalizeClientId c } },
        [Emission.setClient ((roomMembers st ((codeVar st s).getD "null")).filter (· ≠ s)) s
          { playerId := p, clientId := normalizeClientId c }]) := by
  cases hcl : lookupA st.clients s with
  | none => simp [idHandler, hcl]
  | some cl =>
      cases hcid : cl.clientId with
      | none => simp [idHandler, hcl, hcid]
      | some w =>
          have hw : w = c := hok cl hcl w hcid
          subst hw
          simp [idHandler, hcl, hcid]

/-- Claim C5, amended.  A mismatching re-`identify` (stored non-null
`clientId = v`, asserted `c ≠ v`) is rejected: the handler never writes the
new identity and disconnects the session, whose disconnect cleanup then
*deletes* the stored identity (it is not left in place).  A matching
re-`identify` succeeds, overwrites the entry with the (re-normalized) pair,
and is idempotent: applying the same message again returns the identical
state and the identical `setClient` emission. -/
theorem C5_amended (st : ServerState) (s : SessionId) (p c : Int) (cl : Client) (v : Int)
    (hcl : lookupA st.clients s = some cl) (hv : cl.clientId = some v)
    (hnd : (st.clients.map Prod.fst).Nodup) :
    (v ≠ c → idHandler st s (JVal.num p) (JVal.num c) = (disconnectSocket st s, []) ∧
       lookupA (disconnectSocket st s).clients s = none) ∧
    (v = c →
       (idHandler st s (JVal.num p) (JVal.num c)).1.clients =
         insertA st.clients s { playerId := p, clientId := normalizeClientId c } ∧
       idHandler (idHandler st s (JVal.num p) (JVal.num c)).1 s (JVal.num p) (JVal.num c) =
         idHandler st s (JVal.num p) (JVal.num c)) := by
  constructor
  · intro hvc
    have hmm : idHandler st s (JVal.num p) (JVal.num c) = (disconnectSocket st s, []) := by
      simp [idHandler, hcl, hv, hvc]
    exact ⟨hmm, lookupA_eraseA_self_of_nodup st.clients s hnd⟩
  · intro hvc
    subst hvc
    have hok : ∀ cl', lookupA st.clients s = some cl' → ∀ w, cl'.clientId = some w → w = v := by
      intro cl' hcl' w hw
      rw [hcl] at hcl'
      injection hcl' with h1
      subst h1
      rw [hv] at hw
      injection hw with h2
      exact h2.symm
    have h1 := idHandler_success st s p v hok
    refine ⟨by rw [h1], ?_⟩
    rw [h1]
    have hok1 : ∀ cl', lookupA
        (insertA st.clients s { playerId := p, clientId := normalizeClientId v }) s = some cl' →
        ∀ w, cl'.clientId = some w → w = v := by
      intro cl' hcl' w hw
      rw [lookupA_insertA, if_pos rfl] at hcl'
      injection hcl' with h2
      subst h2
      exact normalizeClientId_some v w hw
    have h2 := idHandler_success
      { st with clients := insertA st.clients s { playerId := p, clientId := normalizeClientId v } }
      s p v hok1
    rw [h2, insertA_insertA_same]
    rfl

/-- Claim C5 witness: two concrete instances of the amended theorem, one
with a mismatching `clientId = 6` against the stored `5` (rejection branch)
and one with the matching `clientId = 5` (idempotent-success branch). -/
theorem C5_amended_witness :
    (((5 : Int) ≠ 6 → idHandler
        { clients := [("S", { playerId := 0, clientId := some 5 })],
          states := [], rooms := [], sockets := [("S", { connected := true, code := none })],
          connectionCount := 1 } "S" (JVal.num 0) (JVal.num 6) =
        (disconnectSocket
          { clients := [("S", { playerId := 0, clientId := some 5 })],
            states := [], rooms := [], sockets := [("S", { connected := true, code := none })],
            connectionCount := 1 } "S", []) ∧
       lookupA (disconnectSocket
          { clients := [("S", { playerId := 0, clientId := some 5 })],
            states := [], rooms := [], sockets := [("S", { connected := true, code := none })],
            connectionCount := 1 } "S").clients "S" = none) ∧
     ((5 : Int) = 6 →
       (idHandler
          { clients := [("S", { playerId := 0, clientId := some 5 })],
            states := [], rooms := [], sockets := [("S", { connected := true, code := none })],
            connectionCount := 1 } "S" (JVal.num 0) (JVal.num 6)).1.clients =
         insertA [("S", { playerId := 0, clientId := some 5 })] "S"
           { playerId := 0, clientId := normalizeClientId 6 } ∧
       idHandler
           (idHandler
             { clients := [("S", { playerId := 0, clientId := some 5 })],
               states := [], rooms := [], sockets := [("S", { connected := true, code := none })],
               connectionCount := 1 } "S" (JVal.num 0) (JVal.num 6)).1
           "S" (JVal.num 0) (JVal.num 6) =
         idHandler
           { clients := [("S", { playerId := 0, clientId := some 5 })],
             states := [], rooms := [], sockets := [("S", { connected := true, code := none })],
             connectionCount := 1 } "S" (JVal.num 0) (JVal.num 6))) ∧
    (((5 : Int) ≠ 5 → idHandler
        { clients := [("S", { playerId := 0, clientId := some 5 })],
          states := [], rooms := [], sockets := [("S", { connected := true, code := none })],
          connectionCount := 1 } "S" (JVal.num 0) (JVal.num 5) =
        (disconnectSocket
          { clients := [("S", { playerId := 0, clientId := some 5 })],
            states := [], rooms := [], sockets := [("S", { connected := true, code := none })],
            connectionCount := 1 } "S", []) ∧
       lookupA (disconnectSocket
          { clients := [("S", { playerId := 0, clientId := some 5 })],
            states := [], rooms := [], sockets := [("S", { connected := true, code := none })],
            connectionCount := 1 } "S").clients "S" = none) ∧
     ((5 : Int) = 5 →
       (idHandler
          { clients := [("S", { playerId := 0, clientId := some 5 })],
            states := [], rooms := [], sockets := [("S", { connected := true, code := none })],
            connectionCount := 1 } "S" (JVal.num 0) (JVal.num 5)).1.clients =
         insertA [("S", { playerId := 0, clientId := some 5 })] "S"
           { playerId := 0, clientId := normalizeClientId 5 } ∧
       idHandler
           (idHandler
             { clients := [("S", { playerId := 0, clientId := some 5 })],
               states := [], rooms := [], sockets := [("S", { connected := true, code := none })],
               connectionCount := 1 } "S" (JVal.num 0) (JVal.num 5)).1
           "S" (JVal.num 0) (JVal.num 5) =
         idHandler
           { clients := [("S", { playerId := 0, clientId := some 5 })],
             states := [], rooms := [], sockets := [("S", { connected := true, code := none })],
             connectionCount := 1 } "S" (JVal.num 0) (JVal.num 5))) :=
  ⟨C5_amended _ "S" 0 6 { playerId := 0, clientId := some 5 } 5
      (by decide) (by decide) (by decide),
    C5_amended _ "S" 0 5 { playerId := 0, clientId := some 5 } 5
      (by decide) (by decide) (by decide)⟩

/-- Claim C6, amended.  The sentinel is not handled uniformly for every
session, and is not identical to omitting the argument; the three cases are:
(1) for a session with no conflicting binding (no stored identity, or a stored
`clientId` that is null or the sentinel itself), `id` with the sentinel
`2^32 - 1` stores `{playerId, clientId: null}` and broadcasts exactly that —
the stored and broadcast values are as if no clientId were known;
(2) for a session already bound to a different non-null `clientId`, the *raw*
sentinel is compared against the stored value before normalization
(`client.clientId !== clientId`), so the message is a mismatch: the session is
disconnected and nothing is stored or broadcast;
(3) omitting the argument altogether (`undefined`) fails the
`typeof clientId !== 'number'` guard and disconnects the session with nothing
stored. -/
theorem C6_amended (st : ServerState) (s : SessionId) (p : Int) :
    ((∀ cl, lookupA st.clients s = some cl →
        cl.clientId = none ∨ cl.clientId = some (2 ^ 32 - 1)) →
      idHandler st s (JVal.num p) (JVal.num (2 ^ 32 - 1)) =
        ({ st with clients := insertA st.clients s { playerId := p, clientId := none } },
          [Emission.setClient ((roomMembers st ((codeVar st s).getD "null")).filter (· ≠ s)) s
            { playerId := p, clientId := none }])) ∧
    (∀ cl v, lookupA st.clients s = some cl → cl.clientId = some v →
      v ≠ 2 ^ 32 - 1 →
      idHandler st s (JVal.num p) (JVal.num (2 ^ 32 - 1)) = (disconnectSocket st s, [])) ∧
    idHandler st s (JVal.num p) JVal.undef = (disconnectSocket st s, []) := by
  refine ⟨?_, ?_, ?_⟩
  · intro h
    have hok : ∀ cl, lookupA st.clients s = some cl →
        ∀ w, cl.clientId = some w → w = 2 ^ 32 - 1 := by
      intro cl hcl w hw
      rcases h cl hcl with hn | hsent
      · rw [hn] at hw
        cases hw
      · rw [hsent] at hw
        injection hw with h1
        exact h1.symm
    have hnorm : normalizeClientId (2 ^ 32 - 1) = none := by
      unfold normalizeClientId
      rw [if_pos rfl]
    rw [idHandler_success st s p (2 ^ 32 - 1) hok, hnorm]
  · intro cl v hcl hv hvs
    simp [idHandler, hcl, hv]
    omega
  · simp [idHandler]

/-- Claim C6 witness: the three conjuncts of the amended theorem exercised at
concrete states — a fresh session (sentinel stores and broadcasts null), a
session bound to `clientId = 5` (sentinel disconnects), and an omitted
argument (disconnect). -/
theorem C6_amended_witness :
    idHandler (connectSocket initState "S") "S" (JVal.num 7) (JVal.num (2 ^ 32 - 1)) =
      ({ connectSocket initState "S" with
          clients := insertA (connectSocket initState "S").clients "S"
            { playerId := 7, clientId := none } },
        [Emission.setClient
          ((roomMembers (connectSocket initState "S") ((codeVar (connectSocket initState "S") "S").getD "null")).filter (· ≠ "S")) "S"
          { playerId := 7, clientId := none }]) ∧
    idHandler
        { clients := [("S", { playerId := 0, clientId := some 5 })],
          states := [], rooms := [], sockets := [("S", { connected := true, code := none })],
          connectionCount := 1 } "S" (JVal.num 7) (JVal.num (2 ^ 32 - 1)) =
      (disconnectSocket
        { clients := [("S", { playerId := 0, clientId := some 5 })],
          states := [], rooms := [], sockets := [("S", { connected := true, code := none })],
          connectionCount := 1 } "S", []) ∧
    idHandler (connectSocket initState "S") "S" (JVal.num 7) JVal.undef =
      (disconnectSocket (connectSocket initState "S") "S", []) :=
  ⟨(C6_amended (connectSocket initState "S") "S" 7).1 (fun _cl hcl => Option.noConfusion hcl),
    (C6_amended
        { clients := [("S", { playerId := 0, clientId := some 5 })],
          states := [], rooms := [], sockets := [("S", { connected := true, code := none })],
          connectionCount := 1 } "S" 7).2.1
      { playerId := 0, clientId := some 5 } 5 (by decide) (by decide) (by decide),
    (C6_amended (connectSocket initState "S") "S" 7).2.2⟩

/-- Claim C2, amended.  The uniqueness invariant is not maintained by the
code: `identify` never scans the lobby (see the counterexample), and `join`
compares only the *asserted* clientId against stored ones.  What does hold:
the operations that only remove state — `leave` and transport `disconnect` —
preserve the invariant, and the decidable check agrees with the relational
formulation. -/
theorem C2_amended (st : ServerState) (s : SessionId) (h : UniqueIds st) :
    UniqueIds (disconnectSocket st s) ∧ UniqueIds (leaveHandler st s).1 ∧
    uniqueClientIds st = true := by
  refine ⟨?_, ?_, ?_⟩
  · intro rm hrm s1 hs1 s2 hs2 hne e1 he1 e2 he2 h1 h2 v hv1 hv2
    obtain ⟨ms, hmem, hms⟩ := mem_roomsRemoveAll st.rooms s rm hrm
    rw [hms] at hs1 hs2
    exact h (rm.1, ms) hmem s1 (List.mem_of_mem_erase hs1) s2 (List.mem_of_mem_erase hs2)
      hne e1 (mem_eraseA _ _ _ he1) e2 (mem_eraseA _ _ _ he2) h1 h2 v hv1 hv2
  · cases hc : codeVar st s with
    | none =>
        have hl : (leaveHandler st s).1 = st := by
          simp [leaveHandler, hc]
        rw [hl]
        exact h
    | some c =>
        by_cases hce : c ≠ ""
        · have hl : (leaveHandler st s).1 =
              { st with rooms := roomRemove st.rooms c s, clients := eraseA st.clients s } := by
            simp [leaveHandler, hc, hce]
          rw [hl]
          intro rm hrm s1 hs1 s2 hs2 hne e1 he1 e2 he2 h1 h2 v hv1 hv2
          have he1' := mem_eraseA _ _ _ he1
          have he2' := mem_eraseA _ _ _ he2
          have hrm' : rm ∈ st.rooms ∨
              ∃ members, lookupA st.rooms c = some members ∧ rm = (c, members.erase s) := by
            change rm ∈ roomRemove st.rooms c s at hrm
            unfold roomRemove at hrm
            cases hlk : lookupA st.rooms c with
            | none =>
                rw [hlk] at hrm
                exact Or.inl hrm
            | some members =>
                rw [hlk] at hrm
                change rm ∈ (if members.erase s = [] then eraseA st.rooms c
                  else insertA st.rooms c (members.erase s)) at hrm
                by_cases hee : members.erase s = []
                · rw [if_pos hee] at hrm
                  exact Or.inl (mem_eraseA _ _ _ hrm)
                · rw [if_neg hee] at hrm
                  rcases mem_insertA _ _ _ _ hrm with hin | hin
                  · exact Or.inl hin
                  · exact Or.inr ⟨members, rfl, hin⟩
          rcases hrm' with hin | ⟨members, hlk, hrmeq⟩
          · exact h rm hin s1 hs1 s2 hs2 hne e1 he1' e2 he2' h1 h2 v hv1 hv2
          · subst hrmeq
            exact h (c, members) (lookupA_mem _ _ _ hlk)
              s1 (List.mem_of_mem_erase hs1) s2 (List.mem_of_mem_erase hs2)
              hne e1 he1' e2 he2' h1 h2 v hv1 hv2
        · have hl : (leaveHandler st s).1 = st := by
            simp [leaveHandler, hc, hce]
          rw [hl]
          exact h
  · unfold uniqueClientIds
    rw [List.all_eq_true]
    intro rm hrm
    rw [List.all_eq_true]
    intro s1 hs1
    rw [List.all_eq_true]
    intro s2 hs2
    by_cases hss : s1 = s2
    · simp [hss]
    · rw [Bool.or_eq_true]
      refine Or.inr ?_
      cases hc1 : lookupA st.clients s1 with
      | none =>
          cases hc2 : lookupA st.clients s2 <;> rfl
      | some c1 =>
          cases hc2 : lookupA st.clients s2 with
          | none => rfl
          | some c2 =>
              show (!(c1.clientId.isSome && c1.clientId == c2.clientId)) = true
              cases hv1 : c1.clientId with
              | none => rfl
              | some v =>
                  cases hv2 : c2.clientId with
                  | none => rfl
                  | some w =>
                      by_cases hvw : v = w
                      · exfalso
                        subst hvw
                        exact h rm hrm s1 hs1 s2 hs2 hss (s1, c1) (lookupA_mem _ _ _ hc1)
                          (s2, c2) (lookupA_mem _ _ _ hc2) rfl rfl v hv1 hv2
                      · simp [hvw]

/-- Claim C2 witness: concrete instance of the amended theorem at the empty
initial state. -/
theorem C2_amended_witness :
    UniqueIds (disconnectSocket initState "S") ∧ UniqueIds (leaveHandler initState "S").1 ∧
    uniqueClientIds initState = true :=
  C2_amended initState "S" (fun rm hrm => absurd hrm (List.not_mem_nil rm))

/-! ## Snapshot-store lemmas for C7 -/

/-- Does a message overwrite the snapshot slot `code`?  True exactly for a
`pushstate` whose payload parses with embedded `lobbyCode = code`. -/
def pushesCode (parse : String → Option AmongUsState) (code : String) : Msg → Bool
  | .pushstate _ _ state =>
      match parse state with
      | some g => g.lobbyCode = code
      | none => false
  | _ => false

theorem joinHandler_states (st : ServerState) (s : SessionId) (a b c : JVal) :
    (joinHandler st s a b c).1.states = st.states := by
  unfold joinHandler
  cases a <;> cases b <;> cases c <;>
    first
      | rfl
      | (dsimp only
         split <;> rfl)

theorem idHandler_states (st : ServerState) (s : SessionId) (a b : JVal) :
    (idHandler st s a b).1.states = st.states := by
  unfold idHandler
  cases a <;> cases b <;>
    first
      | rfl
      | (dsimp only
         split <;> rfl)

theorem leaveHandler_states (st : ServerState) (s : SessionId) :
    (leaveHandler st s).1.states = st.states := by
  unfold leaveHandler
  cases hc : codeVar st s with
  | none => rfl
  | some c =>
      show (if c ≠ "" then
          ({ st with rooms := roomRemove st.rooms c s, clients := eraseA st.clients s },
            ([] : List Emission))
        else (st, [])).1.states = st.states
      split <;> rfl

theorem ok_eq_fst {ε α β : Type} {x : α × β} {a : α} {b : β}
    (h : (Except.ok x : Except ε (α × β)) = Except.ok (a, b)) : x.1 = a := by
  injection h with h1
  rw [h1]

theorem signalHandler_states (st st' : ServerState) (s : SessionId) (sig : SignalArg)
    (out : List Emission) (hs : signalHandler st s sig = Except.ok (st', out)) :
    st'.states = st.states := by
  cases sig with
  | nullArg =>
      simp only [signalHandler] at hs
      exact Except.noConfusion hs
  | nonObj v =>
      simp only [signalHandler] at hs
      have h1 := ok_eq_fst hs
      subst h1
      rfl
  | obj d t =>
      simp only [signalHandler] at hs
      split at hs
      · cases t <;>
          · have h1 := ok_eq_fst hs
            subst h1
            rfl
      · have h1 := ok_eq_fst hs
        subst h1
        rfl

/-- A single step that does not push `code` leaves the snapshot slot for
`code` untouched. -/
theorem step_states_lookup (parse : String → Option AmongUsState) (code : String)
    (st : ServerState) (m : Msg) (st' : ServerState) (out : List Emission)
    (hs : step parse st m = Except.ok (st', out))
    (hp : pushesCode parse code m = false) :
    lookupA st'.states code = lookupA st.states code := by
  cases m with
  | connect s =>
      simp only [step] at hs
      have h1 := ok_eq_fst hs
      subst h1
      rfl
  | join s a b c =>
      simp only [step] at hs
      by_cases hc : isConnected st s = true
      · rw [if_pos hc] at hs
        have h1 := ok_eq_fst hs
        subst h1
        rw [joinHandler_states]
      · rw [if_neg hc] at hs
        have h1 := ok_eq_fst hs
        subst h1
        rfl
  | idmsg s a b =>
      simp only [step] at hs
      by_cases hc : isConnected st s = true
      · rw [if_pos hc] at hs
        have h1 := ok_eq_fst hs
        subst h1
        rw [idHandler_states]
      · rw [if_neg hc] at hs
        have h1 := ok_eq_fst hs
        subst h1
        rfl
  | pushstate s idV state =>
      simp only [step] at hs
      by_cases hc : isConnected st s = true
      · rw [if_pos hc] at hs
        unfold pushstateHandler at hs
        cases hpp : parse state with
        | none =>
            rw [hpp] at hs
            exact Except.noConfusion hs
        | some g =>
            rw [hpp] at hs
            have h1 := ok_eq_fst hs
            subst h1
            have hgc : ¬ g.lobbyCode = code := by
              simp only [pushesCode] at hp
              rw [hpp] at hp
              simpa using hp
            show lookupA (insertA st.states g.lobbyCode g) code = lookupA st.states code
            rw [lookupA_insertA, if_neg hgc]
      · rw [if_neg hc] at hs
        have h1 := ok_eq_fst hs
        subst h1
        rfl
  | leave s =>
      simp only [step] at hs
      by_cases hc : isConnected st s = true
      · rw [if_pos hc] at hs
        have h1 := ok_eq_fst hs
        subst h1
        rw [leaveHandler_states]
      · rw [if_neg hc] at hs
        have h1 := ok_eq_fst hs
        subst h1
        rfl
  | signal s sig =>
      simp only [step] at hs
      by_cases hc : isConnected st s = true
      · rw [if_pos hc] at hs
        rw [signalHandler_states st st' s sig out hs]
      · rw [if_neg hc] at hs
        have h1 := ok_eq_fst hs
        subst h1
        rfl
  | disconnect s =>
      simp only [step] at hs
      by_cases hc : isConnected st s = true
      · rw [if_pos hc] at hs
        have h1 := ok_eq_fst hs
        subst h1
        rfl
      · rw [if_neg hc] at hs
        have h1 := ok_eq_fst hs
        subst h1
        rfl

theorem runMsgs_cons (parse : String → Option AmongUsState) (st : ServerState)
    (m : Msg) (ms : List Msg) :
    runMsgs parse st (m :: ms) =
      match step parse st m with
      | .error e => .error e
      | .ok (st1, out1) =>
          match runMsgs parse st1 ms with
          | .error e => .error e
          | .ok (st2, out2) => .ok (st2, out1 ++ out2) := rfl

/-- Inversion of a successful run on a cons trace. -/
theorem runMsgs_cons_ok (parse : String → Option AmongUsState) (st : ServerState)
    (m : Msg) (ms : List Msg) (st' : ServerState) (out : List Emission)
    (h : runMsgs parse st (m :: ms) = Except.ok (st', out)) :
    ∃ st1 out1 out2, step parse st m = Except.ok (st1, out1) ∧
      runMsgs parse st1 ms = Except.ok (st', out2) ∧ out = out1 ++ out2 := by
  rw [runMsgs_cons] at h
  split at h
  · exact Except.noConfusion h
  · rename_i st1 out1 heq
    split at h
    · exact Except.noConfusion h
    · rename_i st2 out2 heq2
      injection h with h1
      injection h1 with ha hb
      subst ha
      subst hb
      exact ⟨st1, out1, out2, heq, heq2, rfl⟩

/-- A run containing no push for `code` leaves the snapshot slot for `code`
untouched. -/
theorem runMsgs_states_lookup (parse : String → Option AmongUsState) (code : String) :
    ∀ (trace : List Msg) (st st' : ServerState) (out : List Emission),
      runMsgs parse st trace = Except.ok (st', out) →
      (∀ m ∈ trace, pushesCode parse code m = false) →
      lookupA st'.states code = lookupA st.states code := by
  intro trace
  induction trace with
  | nil =>
      intro st st' out h hall
      unfold runMsgs at h
      have h1 := ok_eq_fst h
      subst h1
      rfl
  | cons m ms ih =>
      intro st st' out h hall
      obtain ⟨st1, out1, out2, hstep, hrun, hout⟩ := runMsgs_cons_ok parse st m ms st' out h
      have h1 := step_states_lookup parse code st m st1 out1 hstep
        (hall m (List.mem_cons_self m ms))
      have h2 := ih st1 st' out2 hrun (fun m' hm' => hall m' (List.mem_cons_of_mem m hm'))
      rw [h2, h1]

/-- Claim C7: a `pushstate` whose payload parses with embedded
`lobbyCode` overwrites exactly that snapshot slot wholesale (the stored value
is the parsed snapshot itself, no merging), and querying it afterwards returns
it; a code for which no trace message ever pushed a snapshot has no entry
(absence). -/
theorem C7_pushstate_snapshot (parse : String → Option AmongUsState) (code : String) :
    (∀ st s idV state g, parse state = some g →
       pushstateHandler parse st s idV state =
         Except.ok ({ st with states := insertA st.states g.lobbyCode g }, []) ∧
       lookupA (insertA st.states g.lobbyCode g) g.lobbyCode = some g) ∧
    (∀ trace st out, runMsgs parse initState trace = Except.ok (st, out) →
       (∀ m ∈ trace, pushesCode parse code m = false) →
       lookupA st.states code = none) := by
  constructor
  · intro st s idV state g hg
    constructor
    · simp [pushstateHandler, hg]
    · rw [lookupA_insertA, if_pos rfl]
  · intro trace st out hrun hall
    have h := runMsgs_states_lookup parse code trace initState st out hrun hall
    rw [h]
    rfl

/-- A concrete snapshot used to exercise the snapshot-store theorems. -/
def demoState : AmongUsState :=
  { gameState := .LOBBY, oldGameState := .LOBBY, lobbyCode := "ABCDE", players := [],
    isHost := false, clientId := 0, hostId := 0, commsSabotaged := false }

/-- A concrete stand-in for `JSON.parse`: one known-good payload string. -/
def demoParse : String → Option AmongUsState :=
  fun s => if s = "blob" then some demoState else none

/-- Claim C7 witness: both halves of the theorem instantiated — a concrete
push stores and returns `demoState` under `"ABCDE"`, and a trace that never
pushes `"ZZZZZ"` leaves that slot absent. -/
theorem C7_pushstate_snapshot_witness :
    (pushstateHandler demoParse initState "S" (JVal.num 0) "blob" =
        Except.ok ({ initState with
          states := insertA initState.states demoState.lobbyCode demoState }, []) ∧
      lookupA (insertA initState.states demoState.lobbyCode demoState) demoState.lobbyCode =
        some demoState) ∧
    lookupA
      ({ clients := [],
         states := [("ABCDE", demoState)],
         rooms := [("S", ["S"])],
         sockets := [("S", { connected := true, code := none })],
         connectionCount := 1 } : ServerState).states "ZZZZZ" = none :=
  ⟨(C7_pushstate_snapshot demoParse "ZZZZZ").1 initState "S" (JVal.num 0) "blob" demoState
      (by decide),
    (C7_pushstate_snapshot demoParse "ZZZZZ").2
      [Msg.connect "S", Msg.pushstate "S" (JVal.num 0) "blob"]
      { clients := [],
        states := [("ABCDE", demoState)],
        rooms := [("S", ["S"])],
        sockets := [("S", { connected := true, code := none })],
        connectionCount := 1 }
      [] rfl (by decide)⟩
